import Mathlib

/-!
Verification of the authentication core of the `fastapi-aplications`
repository: JWT issue/verify (`app/auth/utils.py`), bcrypt password
hashing (`app/auth/utils.py`), and the credential/identity services
(`app/services/auth_service.py`), shallowly embedded as executable
Lean definitions.

Modelling conventions:
* Timestamps are `Nat` seconds (pyjwt serialises `datetime` claims as
  integer POSIX timestamps).
* The RSA key pair is modelled by a `Nat` seed shared by the private and
  the public half; a signature records the seed, the algorithm and the
  signed content, and verification succeeds exactly when all three match.
* JSON claim values are the inductive `JVal` (strings, naturals,
  booleans), sufficient for every claim under study.
-/

namespace FastapiApp

/-- JSON-like claim values carried in a JWT payload. -/
inductive JVal
  | s (v : String)
  | n (v : Nat)
  | b (v : Bool)
deriving DecidableEq, Repr

/-- A decoded JWT payload: a Python `dict` as an association list
(last write wins, looked up by first occurrence after normalisation). -/
abbrev Claims := List (String × JVal)

/-- Dictionary lookup (`payload.get(k)`). -/
def lookupClaim (p : Claims) (k : String) : Option JVal :=
  match p with
  | [] => none
  | (k1, v) :: rest => if k1 = k then some v else lookupClaim rest k

/-- Python dict override `{**d, k: v}`: any earlier binding of `k` is
replaced by `v`. -/
def setClaim (p : Claims) (k : String) (v : JVal) : Claims :=
  (p.filter (fun kv => !(kv.1 == k))) ++ [(k, v)]

/-- Python truthiness of a claim value (`if not x`). -/
def pyTruthy : JVal → Bool
  | .s v => !(v == "")
  | .n v => !(v == 0)
  | .b v => v

/-- Python `int(x)` applied to a claim value, as used by pyjwt when
validating numeric claims (`exp`, `iat`, `nbf`); `none` models the
`ValueError` branch.  (Numeric strings are modelled by `String.toNat?`.) -/
def pyInt : JVal → Option Nat
  | .n v => some v
  | .b v => some (cond v 1 0)
  | .s v => v.toNat?

theorem lookupClaim_setClaim_same (p : Claims) (k : String) (v : JVal) :
    lookupClaim (setClaim p k v) k = some v := by
  induction p with
  | nil => simp [setClaim, lookupClaim]
  | cons kv rest ih =>
    by_cases h : kv.1 = k
    · simpa [setClaim, h] using ih
    · simp only [setClaim, List.filter_cons] at ih ⊢
      simp [h, lookupClaim, ih]

theorem lookupClaim_setClaim_other (p : Claims) (k k' : String) (v : JVal)
    (h : k' ≠ k) : lookupClaim (setClaim p k v) k' = lookupClaim p k' := by
  induction p with
  | nil => simp [setClaim, lookupClaim, Ne.symm h]
  | cons kv rest ih =>
    simp only [setClaim, List.filter_cons] at ih ⊢
    cases hkb : (kv.1 == k) with
    | false => simp [lookupClaim, ih]
    | true =>
      have hk : kv.1 = k := eq_of_beq hkb
      simp [lookupClaim, hk, Ne.symm h, ih]

/-- The JWT-relevant fields of `app.core.config.Settings` with their
defaults (`app/core/config.py`). -/
structure Settings where
  algorithm : String
  access_token_expires_minutes : Nat
  refresh_token_expires_minutes : Nat
  issuer : String
  audience : String
deriving DecidableEq, Repr

def settings : Settings :=
  { algorithm := "RS256"
    access_token_expires_minutes := 30
    refresh_token_expires_minutes := 60 * 24 * 14
    issuer := "ai-assistant-chat"
    audience := "ai-assistant-clients" }

/-- A signature value: records the signing key (private/public seed),
the algorithm named in the signed header, and the signed payload.
Verification with public seed `k`, header algorithm `a` and payload `c`
succeeds exactly on `⟨k, a, c⟩`.  This models an ideal unforgeable
asymmetric scheme. -/
structure Sig where
  keySeed : Nat
  alg : String
  content : Claims
deriving DecidableEq, Repr

/-- A structurally well-formed JWT: header algorithm, payload, signature. -/
structure Jwt where
  alg : String
  payload : Claims
  sig : Sig
deriving DecidableEq, Repr

/-- A token as presented on the wire: either it parses into the
three-part JWT structure or it is malformed. -/
inductive TokenWire
  | token (t : Jwt)
  | malformed (raw : String)
deriving DecidableEq, Repr

/-- The pyjwt exceptions `decode_jwt` can raise (`jwt/exceptions.py`).
Every one of them is a subclass of `InvalidTokenError`. -/
inductive JwtExc
  | decodeError
  | invalidSignatureError
  | invalidAlgorithmError
  | expiredSignatureError
  | immatureSignatureError
  | invalidIssuedAtError
  | invalidIssuerError
  | invalidAudienceError
  | missingRequiredClaimError (claim : String)
deriving DecidableEq, Repr

/-- pyjwt exception hierarchy: which exceptions are (subclasses of)
`jwt.exceptions.InvalidTokenError`.  In pyjwt, `DecodeError`,
`InvalidSignatureError` (⊂ `DecodeError`), `ExpiredSignatureError`,
`ImmatureSignatureError`, `InvalidIssuedAtError`, `InvalidIssuerError`,
`InvalidAudienceError`, `InvalidAlgorithmError` and
`MissingRequiredClaimError` all derive from `InvalidTokenError`. -/
def isInvalidTokenSubclass : JwtExc → Bool
  | .decodeError => true
  | .invalidSignatureError => true
  | .invalidAlgorithmError => true
  | .expiredSignatureError => true
  | .immatureSignatureError => true
  | .invalidIssuedAtError => true
  | .invalidIssuerError => true
  | .invalidAudienceError => true
  | .missingRequiredClaimError _ => true

/-- The merged claim set built by `encode_jwt`:
`{**payload, "iss": issuer, "aud": audience, "exp": exp, "iat": now}`. -/
def encodedClaims (payload : Claims) (issuer audience : String)
    (exp iat : Nat) : Claims :=
  setClaim (setClaim (setClaim (setClaim payload "iss" (.s issuer))
    "aud" (.s audience)) "exp" (.n exp)) "iat" (.n iat)

/-- Model of `encode_jwt` (`app/auth/utils.py`, lines 16–49).  `now` stands for
`datetime.utcnow()`; `expires_timedelta` is the optional override of the
`expires_in`-minutes default; the reserved claims override any
caller-supplied ones. -/
def encode_jwt (payload : Claims) (private_key : Nat) (algorithm : String)
    (expires_in : Nat) (expires_timedelta : Option Nat)
    (issuer audience : String) (now : Nat) : TokenWire :=
  let exp := now + (expires_timedelta.getD (expires_in * 60))
  let to_encode := encodedClaims payload issuer audience exp now
  .token { alg := algorithm, payload := to_encode,
           sig := { keySeed := private_key, alg := algorithm, content := to_encode } }

/-- pyjwt `_validate_iat`: if an `iat` claim is present it must convert
to an integer, else `InvalidIssuedAtError`. -/
def checkIat (p : Claims) : Option JwtExc :=
  match lookupClaim p "iat" with
  | none => none
  | some v => if (pyInt v).isSome then none else some .invalidIssuedAtError

/-- pyjwt `_validate_nbf`: a present `nbf` must be an integer
(else `DecodeError`) and must not lie in the future
(else `ImmatureSignatureError`). -/
def checkNbf (p : Claims) (now : Nat) : Option JwtExc :=
  match lookupClaim p "nbf" with
  | none => none
  | some v =>
    match pyInt v with
    | none => some .decodeError
    | some nbf => if now < nbf then some .immatureSignatureError else none

/-- pyjwt `_validate_exp`: a present `exp` must be an integer
(else `DecodeError`) and must lie strictly after `now`
(else `ExpiredSignatureError`; the check is `exp <= now` with zero leeway). -/
def checkExp (p : Claims) (now : Nat) : Option JwtExc :=
  match lookupClaim p "exp" with
  | none => none
  | some v =>
    match pyInt v with
    | none => some .decodeError
    | some exp => if exp ≤ now then some .expiredSignatureError else none

/-- pyjwt `_validate_iss` with an expected issuer: the claim must be
present and equal to it. -/
def checkIss (p : Claims) (issuer : String) : Option JwtExc :=
  match lookupClaim p "iss" with
  | none => some (.missingRequiredClaimError "iss")
  | some v => if v = .s issuer then none else some .invalidIssuerError

/-- pyjwt `_validate_aud` with an expected (string) audience: the claim
must be present and equal to it. -/
def checkAud (p : Claims) (audience : String) : Option JwtExc :=
  match lookupClaim p "aud" with
  | none => some (.missingRequiredClaimError "aud")
  | some v => if v = .s audience then none else some .invalidAudienceError

/-- pyjwt `_validate_claims`: the registered-claim checks in order
(`iat`, `nbf`, `exp`, `iss`, `aud`); `none` means all pass. -/
def validateClaims (p : Claims) (issuer audience : String) (now : Nat) :
    Option JwtExc :=
  match checkIat p with
  | some e => some e
  | none =>
    match checkNbf p now with
    | some e => some e
    | none =>
      match checkExp p now with
      | some e => some e
      | none =>
        match checkIss p issuer with
        | some e => some e
        | none => checkAud p audience

/-- Model of `decode_jwt` (`app/auth/utils.py`, lines 52–82), which delegates to
`pyjwt.decode(token, public_key, algorithms=[algorithm], audience=…,
issuer=…)`: structural parse (malformed → `DecodeError`), header
algorithm pinned to the single allowed one (`InvalidAlgorithmError`),
signature verification (`InvalidSignatureError`), then the registered
claim checks. -/
def decode_jwt (tok : TokenWire) (public_key : Nat) (algorithm : String)
    (issuer audience : String) (now : Nat) : Except JwtExc Claims :=
  match tok with
  | .malformed _ => .error .decodeError
  | .token t =>
    if t.alg = algorithm then
      if t.sig = ⟨public_key, t.alg, t.payload⟩ then
        match validateClaims t.payload issuer audience now with
        | some e => .error e
        | none => .ok t.payload
      else .error .invalidSignatureError
    else .error .invalidAlgorithmError

/-- An HTTP error surfaced by the service layer (`fastapi.HTTPException`). -/
structure HTTPError where
  status_code : Nat
  detail : String
deriving DecidableEq, Repr

/-- Outcome of `get_current_token_payload`: a decoded payload, an
`HTTPException`, or a propagated non-`InvalidTokenError` exception. -/
inductive PayloadResult
  | ok (payload : Claims)
  | http (e : HTTPError)
  | uncaughtJwt (e : JwtExc)
deriving DecidableEq, Repr

/-- Model of `get_current_token_payload` (`app/services/auth_service.py`,
lines 139–162): decode the bearer token with the process keys and the
configured settings; `except InvalidTokenError` maps any such failure to
HTTP 401 "Invalid credentials.", and any other exception would
propagate uncaught. -/
def get_current_token_payload (tok : TokenWire) (public_key : Nat)
    (now : Nat) : PayloadResult :=
  match decode_jwt tok public_key settings.algorithm settings.issuer
      settings.audience now with
  | .ok p => .ok p
  | .error e =>
    if isInvalidTokenSubclass e then .http ⟨401, "Invalid credentials."⟩
    else .uncaughtJwt e

theorem validateClaims_none (p : Claims) (issuer audience : String) (now : Nat)
    (h : validateClaims p issuer audience now = none) :
    checkIat p = none ∧ checkNbf p now = none ∧ checkExp p now = none ∧
      checkIss p issuer = none ∧ checkAud p audience = none := by
  unfold validateClaims at h
  cases h1 : checkIat p with
  | some e => rw [h1] at h; cases h
  | none =>
  rw [h1] at h
  cases h2 : checkNbf p now with
  | some e => rw [h2] at h; cases h
  | none =>
  rw [h2] at h
  cases h3 : checkExp p now with
  | some e => rw [h3] at h; cases h
  | none =>
  rw [h3] at h
  cases h4 : checkIss p issuer with
  | some e => rw [h4] at h; cases h
  | none =>
  rw [h4] at h
  exact ⟨rfl, rfl, rfl, rfl, h⟩

theorem checkExp_none_lt (p : Claims) (now e : Nat)
    (h : checkExp p now = none) (hl : lookupClaim p "exp" = some (.n e)) :
    now < e := by
  unfold checkExp at h
  rw [hl] at h
  simp only [pyInt] at h
  by_cases he : e ≤ now
  · rw [if_pos he] at h; cases h
  · omega

theorem checkIss_none_eq (p : Claims) (issuer : String) (v : JVal)
    (h : checkIss p issuer = none) (hl : lookupClaim p "iss" = some v) :
    v = .s issuer := by
  unfold checkIss at h
  rw [hl] at h
  dsimp only at h
  by_cases hv : v = .s issuer
  · exact hv
  · rw [if_neg hv] at h; cases h

theorem checkAud_none_eq (p : Claims) (audience : String) (v : JVal)
    (h : checkAud p audience = none) (hl : lookupClaim p "aud" = some v) :
    v = .s audience := by
  unfold checkAud at h
  rw [hl] at h
  dsimp only at h
  by_cases hv : v = .s audience
  · exact hv
  · rw [if_neg hv] at h; cases h

/-- Characterisation of a successful decode: the token is structurally
well formed, pinned to the expected algorithm, carries a valid signature
over its own payload, and passes every registered-claim check. -/
theorem decode_jwt_ok (tok : TokenWire) (public_key : Nat)
    (algorithm issuer audience : String) (now : Nat) (p : Claims)
    (h : decode_jwt tok public_key algorithm issuer audience now = .ok p) :
    ∃ t, tok = .token t ∧ p = t.payload ∧ t.alg = algorithm ∧
      t.sig = ⟨public_key, t.alg, t.payload⟩ ∧
      validateClaims t.payload issuer audience now = none := by
  cases tok with
  | malformed raw => cases h
  | token t =>
    refine ⟨t, rfl, ?_⟩
    by_cases h1 : t.alg = algorithm
    · by_cases h2 : t.sig = ⟨public_key, t.alg, t.payload⟩
      · simp only [decode_jwt, if_pos h1, if_pos h2] at h
        cases hv : validateClaims t.payload issuer audience now with
        | some e => rw [hv] at h; cases h
        | none =>
          rw [hv] at h
          injection h with hpe
          exact ⟨hpe.symm, h1, h2, rfl⟩
      · simp only [decode_jwt, if_pos h1, if_neg h2] at h; cases h
    · simp only [decode_jwt, if_neg h1] at h; cases h

/-- The verification-failure conditions enumerated by the spec:
malformed structure, a header algorithm other than the pinned one, an
invalid signature, an expired token (`exp` not after `now`), a wrong
issuer, or a wrong audience. -/
def decodeFailCondition (tok : TokenWire) (public_key : Nat)
    (algorithm issuer audience : String) (now : Nat) : Prop :=
  (∃ raw, tok = .malformed raw) ∨
  (∃ t, tok = .token t ∧ t.alg ≠ algorithm) ∨
  (∃ t, tok = .token t ∧ t.sig ≠ ⟨public_key, t.alg, t.payload⟩) ∨
  (∃ t e, tok = .token t ∧ lookupClaim t.payload "exp" = some (.n e) ∧
    e ≤ now) ∨
  (∃ t v, tok = .token t ∧ lookupClaim t.payload "iss" = some v ∧
    v ≠ .s issuer) ∨
  (∃ t v, tok = .token t ∧ lookupClaim t.payload "aud" = some v ∧
    v ≠ .s audience)

/-- C1: for every token, key and verification time, `decode_jwt` fails
with an `InvalidTokenError`-subclass exception whenever the signature is
invalid, the token is expired, the issuer or audience differs from the
configured one, the structure is malformed, or the header declares an
algorithm other than the pinned one — and the error surfaced to the
caller (`get_current_token_payload`) is the identical
HTTP 401 "Invalid credentials." for every one of these reasons. -/
theorem decode_jwt_uniform_invalid_token (tok : TokenWire)
    (public_key : Nat) (now : Nat)
    (h : decodeFailCondition tok public_key settings.algorithm
      settings.issuer settings.audience now) :
    (∃ e, decode_jwt tok public_key settings.algorithm settings.issuer
        settings.audience now = .error e ∧ isInvalidTokenSubclass e = true) ∧
    get_current_token_payload tok public_key now =
      .http ⟨401, "Invalid credentials."⟩ := by
  have hfail : ∀ p, decode_jwt tok public_key settings.algorithm
      settings.issuer settings.audience now ≠ .ok p := by
    intro p hok
    obtain ⟨t, ht, hp, halg, hsig, hval⟩ :=
      decode_jwt_ok _ _ _ _ _ _ _ hok
    obtain ⟨hiat, hnbf, hexp, hiss, haud⟩ := validateClaims_none _ _ _ _ hval
    rcases h with ⟨raw, hm⟩ | ⟨t', ht', ha⟩ | ⟨t', ht', hs⟩ |
      ⟨t', e, ht', hl, he⟩ | ⟨t', v, ht', hl, hv⟩ | ⟨t', v, ht', hl, hv⟩
    · rw [ht] at hm; cases hm
    · rw [ht] at ht'; cases ht'; exact ha halg
    · rw [ht] at ht'; cases ht'; exact hs hsig
    · rw [ht] at ht'; cases ht'
      exact absurd he (by have := checkExp_none_lt _ _ _ hexp hl; omega)
    · rw [ht] at ht'; cases ht'; exact hv (checkIss_none_eq _ _ _ hiss hl)
    · rw [ht] at ht'; cases ht'; exact hv (checkAud_none_eq _ _ _ haud hl)
  cases hd : decode_jwt tok public_key settings.algorithm settings.issuer
      settings.audience now with
  | ok p => exact absurd hd (hfail p)
  | error e =>
    have hcls : isInvalidTokenSubclass e = true := by cases e <;> rfl
    refine ⟨⟨e, rfl, hcls⟩, ?_⟩
    unfold get_current_token_payload
    rw [hd]
    dsimp only
    rw [if_pos hcls]

/-- Witness for C1 at a concrete input: a malformed wire token is
rejected and surfaces as HTTP 401 "Invalid credentials.". -/
theorem decode_jwt_uniform_invalid_token_witness :
    (∃ e, decode_jwt (.malformed "x") 0 settings.algorithm settings.issuer
        settings.audience 0 = .error e ∧ isInvalidTokenSubclass e = true) ∧
    get_current_token_payload (.malformed "x") 0 0 =
      .http ⟨401, "Invalid credentials."⟩ :=
  decode_jwt_uniform_invalid_token (.malformed "x") 0 0 (Or.inl ⟨"x", rfl⟩)

theorem encodedClaims_iat (p : Claims) (i a : String) (e t : Nat) :
    lookupClaim (encodedClaims p i a e t) "iat" = some (.n t) := by
  unfold encodedClaims
  rw [lookupClaim_setClaim_same]

theorem encodedClaims_exp (p : Claims) (i a : String) (e t : Nat) :
    lookupClaim (encodedClaims p i a e t) "exp" = some (.n e) := by
  unfold encodedClaims
  rw [lookupClaim_setClaim_other _ "iat" "exp" _ (by decide),
    lookupClaim_setClaim_same]

theorem encodedClaims_aud (p : Claims) (i a : String) (e t : Nat) :
    lookupClaim (encodedClaims p i a e t) "aud" = some (.s a) := by
  unfold encodedClaims
  rw [lookupClaim_setClaim_other _ "iat" "aud" _ (by decide),
    lookupClaim_setClaim_other _ "exp" "aud" _ (by decide),
    lookupClaim_setClaim_same]

theorem encodedClaims_iss (p : Claims) (i a : String) (e t : Nat) :
    lookupClaim (encodedClaims p i a e t) "iss" = some (.s i) := by
  unfold encodedClaims
  rw [lookupClaim_setClaim_other _ "iat" "iss" _ (by decide),
    lookupClaim_setClaim_other _ "exp" "iss" _ (by decide),
    lookupClaim_setClaim_other _ "aud" "iss" _ (by decide),
    lookupClaim_setClaim_same]

theorem encodedClaims_custom (p : Claims) (i a : String) (e t : Nat)
    (k : String) (h1 : k ≠ "iss") (h2 : k ≠ "aud") (h3 : k ≠ "exp")
    (h4 : k ≠ "iat") :
    lookupClaim (encodedClaims p i a e t) k = lookupClaim p k := by
  unfold encodedClaims
  rw [lookupClaim_setClaim_other _ "iat" k _ h4,
    lookupClaim_setClaim_other _ "exp" k _ h3,
    lookupClaim_setClaim_other _ "aud" k _ h2,
    lookupClaim_setClaim_other _ "iss" k _ h1]

theorem encode_jwt_eq (payload : Claims) (private_key : Nat)
    (algorithm : String) (expires_in : Nat)
    (expires_timedelta : Option Nat) (issuer audience : String)
    (now : Nat) :
    encode_jwt payload private_key algorithm expires_in expires_timedelta
        issuer audience now =
      .token { alg := algorithm,
               payload := encodedClaims payload issuer audience
                 (now + expires_timedelta.getD (expires_in * 60)) now,
               sig := ⟨private_key, algorithm,
                 encodedClaims payload issuer audience
                   (now + expires_timedelta.getD (expires_in * 60)) now⟩ } :=
  rfl

/-- C7: for every payload and every issuance time, the token produced by
`encode_jwt` carries `iss` equal to the configured issuer, `aud` equal to
the configured audience, `iat` equal to `now`, and `exp` equal to
`now + ttl`, where the ttl is the configured per-class value
(`expires_in` minutes by default, overridable by `expires_timedelta`);
hence `exp - iat` equals the ttl, and `exp > iat` holds since every
configured ttl is positive. -/
theorem encode_jwt_claims (payload : Claims) (private_key : Nat)
    (algorithm : String) (expires_in : Nat)
    (expires_timedelta : Option Nat) (issuer audience : String) (now : Nat)
    (httl : 0 < expires_timedelta.getD (expires_in * 60)) :
    ∃ t, encode_jwt payload private_key algorithm expires_in
        expires_timedelta issuer audience now = .token t ∧
      lookupClaim t.payload "iss" = some (.s issuer) ∧
      lookupClaim t.payload "aud" = some (.s audience) ∧
      lookupClaim t.payload "iat" = some (.n now) ∧
      lookupClaim t.payload "exp" =
        some (.n (now + expires_timedelta.getD (expires_in * 60))) ∧
      (now + expires_timedelta.getD (expires_in * 60)) - now =
        expires_timedelta.getD (expires_in * 60) ∧
      now < now + expires_timedelta.getD (expires_in * 60) := by
  refine ⟨_, encode_jwt_eq payload private_key algorithm expires_in
    expires_timedelta issuer audience now, ?_, ?_, ?_, ?_, by omega, by omega⟩
  · exact encodedClaims_iss _ _ _ _ _
  · exact encodedClaims_aud _ _ _ _ _
  · exact encodedClaims_iat _ _ _ _ _
  · exact encodedClaims_exp _ _ _ _ _

/-- Witness for C7 at a concrete input: the default access-token ttl of
30 minutes is positive, and the token minted at time 1000 carries the
configured issuer and audience, `iat = 1000` and `exp = 1000 + 1800`. -/
theorem encode_jwt_claims_witness :
    ∃ t, encode_jwt [("sub", .s "u1")] 7 settings.algorithm
        settings.access_token_expires_minutes none settings.issuer
        settings.audience 1000 = .token t ∧
      lookupClaim t.payload "iss" = some (.s settings.issuer) ∧
      lookupClaim t.payload "aud" = some (.s settings.audience) ∧
      lookupClaim t.payload "iat" = some (.n 1000) ∧
      lookupClaim t.payload "exp" =
        some (.n (1000 + (none : Option Nat).getD
          (settings.access_token_expires_minutes * 60))) ∧
      (1000 + (none : Option Nat).getD
          (settings.access_token_expires_minutes * 60)) - 1000 =
        (none : Option Nat).getD (settings.access_token_expires_minutes * 60) ∧
      1000 < 1000 + (none : Option Nat).getD
        (settings.access_token_expires_minutes * 60) :=
  encode_jwt_claims [("sub", .s "u1")] 7 settings.algorithm
    settings.access_token_expires_minutes none settings.issuer
    settings.audience 1000 (by decide)

theorem validateClaims_encoded (payload : Claims) (issuer audience : String)
    (e t now : Nat) (hnbf : lookupClaim payload "nbf" = none)
    (h : now < e) :
    validateClaims (encodedClaims payload issuer audience e t) issuer
      audience now = none := by
  have h1 : checkIat (encodedClaims payload issuer audience e t) = none := by
    unfold checkIat
    rw [encodedClaims_iat]
    rfl
  have h2 : checkNbf (encodedClaims payload issuer audience e t) now = none := by
    unfold checkNbf
    rw [encodedClaims_custom _ _ _ _ _ "nbf" (by decide) (by decide)
      (by decide) (by decide), hnbf]
  have h3 : checkExp (encodedClaims payload issuer audience e t) now = none := by
    unfold checkExp
    rw [encodedClaims_exp]
    dsimp only [pyInt]
    rw [if_neg (by omega)]
  have h4 : checkIss (encodedClaims payload issuer audience e t) issuer = none := by
    unfold checkIss
    rw [encodedClaims_iss]
    dsimp only
    rw [if_pos rfl]
  have h5 : checkAud (encodedClaims payload issuer audience e t) audience = none := by
    unfold checkAud
    rw [encodedClaims_aud]
    dsimp only
    rw [if_pos rfl]
  simp [validateClaims, h1, h2, h3, h4, h5]

/-- C4 (amended): for every claim set whose keys do not include `nbf`,
and matching signing/verification key, decoding the token produced by
`encode_jwt` with the same configured issuer, audience and algorithm
succeeds before expiry and recovers `sub`, `iss` and `aud`, returning
every custom field (any key other than the reserved
`iss`/`aud`/`exp`/`iat`) with its original value. -/
theorem encode_decode_roundtrip (payload : Claims) (key : Nat)
    (expires_in : Nat) (expires_timedelta : Option Nat) (now now' : Nat)
    (hnbf : lookupClaim payload "nbf" = none)
    (hexp : now' < now + expires_timedelta.getD (expires_in * 60)) :
    ∃ decoded,
      decode_jwt
          (encode_jwt payload key settings.algorithm expires_in
            expires_timedelta settings.issuer settings.audience now)
          key settings.algorithm settings.issuer settings.audience now' =
        .ok decoded ∧
      lookupClaim decoded "iss" = some (.s settings.issuer) ∧
      lookupClaim decoded "aud" = some (.s settings.audience) ∧
      lookupClaim decoded "sub" = lookupClaim payload "sub" ∧
      (∀ k, k ≠ "iss" → k ≠ "aud" → k ≠ "exp" → k ≠ "iat" →
        lookupClaim decoded k = lookupClaim payload k) := by
  refine ⟨encodedClaims payload settings.issuer settings.audience
      (now + expires_timedelta.getD (expires_in * 60)) now, ?_,
    encodedClaims_iss _ _ _ _ _, encodedClaims_aud _ _ _ _ _,
    encodedClaims_custom _ _ _ _ _ "sub" (by decide) (by decide) (by decide)
      (by decide),
    fun k h1 h2 h3 h4 => encodedClaims_custom _ _ _ _ _ k h1 h2 h3 h4⟩
  rw [encode_jwt_eq]
  unfold decode_jwt
  dsimp only
  rw [if_pos rfl, if_pos rfl,
    validateClaims_encoded payload settings.issuer settings.audience _ now
      now' hnbf hexp]

/-- C4 counterexample: the claim set `{"nbf": 999999}` has no key among
`iss`/`aud`/`exp`/`iat`, yet decoding the freshly minted token with the
matching key, issuer and audience well before expiry fails
(`ImmatureSignatureError`): pyjwt validates a present `nbf` claim, so
custom fields are *not* preserved for every such claim set. -/
theorem roundtrip_rejects_future_nbf :
    decode_jwt
        (encode_jwt [("nbf", .n 999999)] 7 settings.algorithm 30 none
          settings.issuer settings.audience 0)
        7 settings.algorithm settings.issuer settings.audience 10 =
      .error .immatureSignatureError := by
  rfl

/-- Witness for the amended C4 at a concrete input: a claim set with
`sub` and a custom `role` field, minted at time 1000 and decoded at
time 1500 (before the 1800-second expiry), round-trips. -/
theorem encode_decode_roundtrip_witness :
    ∃ decoded,
      decode_jwt
          (encode_jwt [("sub", .s "u1"), ("role", .s "admin")] 7
            settings.algorithm 30 none settings.issuer settings.audience
            1000)
          7 settings.algorithm settings.issuer settings.audience 1500 =
        .ok decoded ∧
      lookupClaim decoded "iss" = some (.s settings.issuer) ∧
      lookupClaim decoded "aud" = some (.s settings.audience) ∧
      lookupClaim decoded "sub" =
        lookupClaim [("sub", .s "u1"), ("role", .s "admin")] "sub" ∧
      (∀ k, k ≠ "iss" → k ≠ "aud" → k ≠ "exp" → k ≠ "iat" →
        lookupClaim decoded k =
          lookupClaim [("sub", .s "u1"), ("role", .s "admin")] k) :=
  encode_decode_roundtrip [("sub", .s "u1"), ("role", .s "admin")] 7 30
    none 1000 1500 (by rfl) (by decide)

/-- Python exceptions relevant to the password helpers. -/
inductive PyError
  | valueError
deriving DecidableEq, Repr

/-- UTF-8 encoding of a single character: the byte values
`str.encode()` produces for it. -/
def utf8EncodeChar (c : Char) : List Nat :=
  let n := c.toNat
  if n < 0x80 then [n]
  else if n < 0x800 then [0xC0 + n / 0x40, 0x80 + n % 0x40]
  else if n < 0x10000 then
    [0xE0 + n / 0x1000, 0x80 + (n / 0x40) % 0x40, 0x80 + n % 0x40]
  else
    [0xF0 + n / 0x40000, 0x80 + (n / 0x1000) % 0x40,
     0x80 + (n / 0x40) % 0x40, 0x80 + n % 0x40]

/-- `password.encode()`: the UTF-8 bytes of a string. -/
def utf8Bytes (s : String) : List Nat :=
  s.data.flatMap utf8EncodeChar

/-- bcrypt's deterministic truncation: only the first 72 bytes of the
encoded password enter the key derivation. -/
def truncate72 (password : String) : List Nat :=
  (utf8Bytes password).take 72

/-- bcrypt rejects passwords containing a NUL byte
(`ValueError("password may not contain NUL bytes")`). -/
def hasNul (password : String) : Bool :=
  (utf8Bytes password).contains 0

/-- A Python string in a stored-password position, modelled by its
bcrypt parse: `hash salt digest` stands for a well-formed `$2b$12$…`
bcrypt hash string with the given salt and digest, and `raw` for any
other (malformed) string.  The digest is idealised as a collision-free
function of the salt and the *first 72 bytes* of the encoded password,
represented by that pair itself — the ideal-KDF reading of the spec's
"with overwhelming probability", kept faithful to bcrypt's
deterministic 72-byte truncation. -/
inductive StoredStr
  | hash (salt : Nat) (digest : Nat × List Nat)
  | raw (s : String)
deriving DecidableEq, Repr

/-- The hash string `bcrypt.hashpw` emits for a NUL-free password:
the digest over the salt and the truncated password bytes. -/
def bcryptHashValue (password : String) (salt : Nat) : StoredStr :=
  .hash salt (salt, truncate72 password)

/-- Model of `bcrypt.hashpw(password, salt)`: rejects a NUL-containing
password with `ValueError`, then derives the digest from the salt and
the first 72 bytes of the encoded password. -/
def bcrypt_hashpw (password : String) (salt : Nat) :
    Except PyError StoredStr :=
  if hasNul password then .error .valueError
  else .ok (bcryptHashValue password salt)

/-- Model of `bcrypt.checkpw(password, stored)`: rejects a
NUL-containing password with `ValueError`, recomputes `hashpw` with the
salt embedded in `stored` and compares; on a `stored` string that is
not a well-formed bcrypt hash it raises `ValueError("Invalid salt")`. -/
def bcrypt_checkpw (password : String) (stored : StoredStr) :
    Except PyError Bool :=
  if hasNul password then .error .valueError
  else
    match stored with
    | .raw _ => .error .valueError
    | .hash salt digest =>
      .ok (bcryptHashValue password salt == .hash salt digest)

/-- Model of `hash_password` (`app/auth/utils.py`, lines 85–97); the
salt drawn by `bcrypt.gensalt()` is an explicit parameter. -/
def hash_password (password : String) (salt : Nat) :
    Except PyError StoredStr :=
  bcrypt_hashpw password salt

/-- Model of `validate_password` (`app/auth/utils.py`, lines 100–111):
delegates directly to `bcrypt.checkpw`, with no exception handling. -/
def validate_password (password : String) (hash_pass : StoredStr) :
    Except PyError Bool :=
  bcrypt_checkpw password hash_pass

/-- C5 counterexample: the distinct passwords a…a (73 copies of a) and
a…ab (72 copies of a, then b) — both within the schema's 100-character
limit — share their first 72 encoded bytes, so bcrypt's deterministic
truncation makes the first validate against a hash of the second:
`validate_password` answers `ok true`, not the claimed false.  The
collision holds for every salt, so the claim's probability hedge over
the randomly generated salt cannot excuse it. -/
theorem password_truncation_counterexample :
    String.mk (List.replicate 73 'a') ≠
      String.mk (List.replicate 72 'a' ++ ['b']) ∧
    hash_password (String.mk (List.replicate 72 'a' ++ ['b'])) 3 =
      .ok (bcryptHashValue (String.mk (List.replicate 72 'a' ++ ['b'])) 3) ∧
    validate_password (String.mk (List.replicate 73 'a'))
        (bcryptHashValue (String.mk (List.replicate 72 'a' ++ ['b'])) 3) =
      .ok true :=
  ⟨by decide, by rfl, by rfl⟩

/-- C5 (amended): for every NUL-free password, hashing succeeds and the
freshly hashed password validates; and for NUL-free passwords whose
first 72 encoded bytes differ, validation against the other's hash
returns false (exactly so in the ideal collision-free digest model,
matching the claim's "overwhelming probability"). -/
theorem password_hash_roundtrip :
    (∀ (p : String) (salt : Nat) (stored : StoredStr),
      hasNul p = false → hash_password p salt = .ok stored →
      validate_password p stored = .ok true) ∧
    (∀ (p1 p2 : String) (salt : Nat) (stored : StoredStr),
      hasNul p1 = false → hasNul p2 = false →
      truncate72 p1 ≠ truncate72 p2 →
      hash_password p2 salt = .ok stored →
      validate_password p1 stored = .ok false) := by
  constructor
  · intro p salt stored hn hh
    rw [hash_password, bcrypt_hashpw, if_neg (by simp [hn])] at hh
    injection hh with hh
    subst hh
    unfold validate_password bcrypt_checkpw
    rw [if_neg (by simp [hn])]
    simp [bcryptHashValue]
  · intro p1 p2 salt stored hn1 hn2 htr hh
    rw [hash_password, bcrypt_hashpw, if_neg (by simp [hn2])] at hh
    injection hh with hh
    subst hh
    unfold validate_password bcrypt_checkpw
    rw [if_neg (by simp [hn1])]
    simp [bcryptHashValue, htr]

/-- Witness for the amended C5 at concrete inputs: NUL-free passwords
whose first-72-byte encodings differ. -/
theorem password_hash_roundtrip_witness :
    validate_password "Abcdef1!" (bcryptHashValue "Abcdef1!" 3) = .ok true ∧
    validate_password "WrongPw2@" (bcryptHashValue "Abcdef1!" 3) =
      .ok false :=
  ⟨password_hash_roundtrip.1 "Abcdef1!" 3 (bcryptHashValue "Abcdef1!" 3)
      (by rfl) (by rfl),
   password_hash_roundtrip.2 "WrongPw2@" "Abcdef1!" 3
      (bcryptHashValue "Abcdef1!" 3) (by rfl) (by rfl) (by decide)
      (by rfl)⟩

/-- C6 counterexample: on a malformed stored hash, `validate_password`
raises — `bcrypt.checkpw` throws `ValueError("Invalid salt")` and the
code has no handler — instead of returning false as claimed. -/
theorem validate_password_malformed_counterexample :
    validate_password "password" (.raw "not-a-bcrypt-hash") =
      .error .valueError := rfl

/-- C6 (amended): for every password and every malformed stored-hash
string, `validate_password` raises `ValueError` (propagated from
`bcrypt.checkpw`) rather than returning false. -/
theorem validate_password_malformed_raises (password s : String) :
    validate_password password (.raw s) = .error .valueError := by
  unfold validate_password bcrypt_checkpw
  by_cases h : hasNul password = true
  · rw [if_pos h]
  · rw [if_neg h]

/-- A persisted `users` row: the columns of `app/models/user.py` plus
the `id`/timestamp/soft-delete columns of `app/database/base_class.py`.
The `id` is the 128-bit integer value of the UUID primary key. -/
structure UserRec where
  id : Nat
  first_name : String
  last_name : String
  email : String
  password : StoredStr
  access : Bool
  is_active : Bool
  created_at : Nat
  updated_at : Nat
  deleted_at : Option Nat
deriving DecidableEq, Repr

/-- Model of `UserRead` (`app/schemas/user.py`, with the `UserBase` fields at
lines 28–35): the response view of a user.  `access` and `is_active`
default to `False` when not supplied, and the schema carries no
password field. -/
structure UserRead where
  email : String
  first_name : String
  last_name : String
  access : Bool := false
  is_active : Bool := false
  id : Nat
  created_at : Nat
  updated_at : Nat
  deleted_at : Option Nat := none
deriving DecidableEq, Repr

/-- Alias `UserSchemas`: "Backward compatible alias used across the
services." -/
abbrev UserSchemas := UserRead

/-- Model of `_get_user_by_email` (`app/services/auth_service.py`, lines 87–93):
`select(User).where(User.email == email)`, then `.scalars().first()`. -/
def get_user_by_email (db : List UserRec) (email : String) :
    Option UserRec :=
  (db.filter (fun u => u.email == email)).head?

/-- Outcome of `validate_auth_user`: an identity, an `HTTPException`,
or an uncaught Python exception escaping from bcrypt. -/
inductive AuthResult
  | ok (u : UserSchemas)
  | http (e : HTTPError)
  | pyExc (e : PyError)
deriving DecidableEq, Repr

/-- Model of `validate_auth_user` (`app/services/auth_service.py`,
lines 96–136).  The `UserSchemas` literal at lines 127–136 passes every
field except `access`, which therefore takes its schema default
`False`. -/
def validate_auth_user (db : List UserRec) (email password : String) :
    AuthResult :=
  match get_user_by_email db email with
  | none => .http ⟨401, "Invalid credentials."⟩
  | some user =>
    match validate_password password user.password with
    | .error e => .pyExc e
    | .ok ok =>
      if !ok then .http ⟨401, "Invalid credentials."⟩
      else if !user.is_active then
        .http ⟨403, "User " ++ user.email ++ " has not been activated"⟩
      else
        .ok { id := user.id, first_name := user.first_name,
              last_name := user.last_name, email := user.email,
              is_active := user.is_active, created_at := user.created_at,
              updated_at := user.updated_at,
              deleted_at := user.deleted_at }

/-- C2: credential validation fails with the identical
HTTP 401 "Invalid credentials." both when no user carries the email and
when the user exists but the password does not match its stored hash;
when the user exists, the password matches, but `is_active` is false,
it fails with a distinguishable HTTP 403 — and that inactive-account
check is reached only after password verification succeeded (a wrong
password yields 401 regardless of `is_active`). -/
theorem validate_auth_user_error_discipline (db : List UserRec)
    (email password : String) :
    (get_user_by_email db email = none →
      validate_auth_user db email password =
        .http ⟨401, "Invalid credentials."⟩) ∧
    (∀ u, get_user_by_email db email = some u →
      validate_password password u.password = .ok false →
      validate_auth_user db email password =
        .http ⟨401, "Invalid credentials."⟩) ∧
    (∀ u, get_user_by_email db email = some u →
      validate_password password u.password = .ok true →
      u.is_active = false →
      validate_auth_user db email password =
        .http ⟨403, "User " ++ u.email ++ " has not been activated"⟩ ∧
      (HTTPError.mk 403 ("User " ++ u.email ++ " has not been activated") ≠
        HTTPError.mk 401 "Invalid credentials.")) := by
  refine ⟨?_, ?_, ?_⟩
  · intro h
    simp [validate_auth_user, h]
  · intro u hu hpw
    simp [validate_auth_user, hu, hpw]
  · intro u hu hpw hact
    refine ⟨by simp [validate_auth_user, hu, hpw, hact], ?_⟩
    intro hcontra
    have := congrArg HTTPError.status_code hcontra
    simp at this

def c2_user : UserRec :=
  { id := 1, first_name := "A", last_name := "B", email := "a@x.com",
    password := bcryptHashValue "Right1!" 5, access := true,
    is_active := false, created_at := 0, updated_at := 0,
    deleted_at := none }

/-- Witness for C2 at concrete inputs: unknown email and wrong password
surface the identical 401; right password on an inactive account
surfaces the 403. -/
theorem validate_auth_user_error_discipline_witness :
    validate_auth_user [c2_user] "b@x.com" "Right1!" =
      .http ⟨401, "Invalid credentials."⟩ ∧
    validate_auth_user [c2_user] "a@x.com" "Wrong2@" =
      .http ⟨401, "Invalid credentials."⟩ ∧
    validate_auth_user [c2_user] "a@x.com" "Right1!" =
      .http ⟨403, "User " ++ c2_user.email ++ " has not been activated"⟩ :=
  ⟨(validate_auth_user_error_discipline [c2_user] "b@x.com" "Right1!").1
      (by rfl),
   (validate_auth_user_error_discipline [c2_user] "a@x.com" "Wrong2@").2.1
      c2_user (by rfl) (by rfl),
   ((validate_auth_user_error_discipline [c2_user] "a@x.com" "Right1!").2.2
      c2_user (by rfl) (by rfl) rfl).1⟩

def c8_user : UserRec :=
  { id := 2, first_name := "C", last_name := "D", email := "c@x.com",
    password := bcryptHashValue "Right1!" 9, access := true,
    is_active := true, created_at := 0, updated_at := 0,
    deleted_at := none }

/-- C8 counterexample: for a stored active user whose `access` column is
true and whose credentials validate, `validate_auth_user` returns an
identity whose `access` flag is false — the schema default — because the
`UserSchemas` literal at lines 127–136 never passes `access`.  The
returned identity therefore does not reflect the persisted record's
`access` value. -/
theorem validate_auth_user_access_counterexample :
    c8_user.access = true ∧
    validate_auth_user [c8_user] "c@x.com" "Right1!" =
      .ok { id := 2, first_name := "C", last_name := "D",
            email := "c@x.com", is_active := true, access := false,
            created_at := 0, updated_at := 0, deleted_at := none } :=
  ⟨rfl, rfl⟩

/-- C8 (amended): for every stored user whose credentials validate and
whose account is active, the `UserSchemas` returned by
`validate_auth_user` reflects the persisted record's `id`, `email`,
names, `is_active` and timestamps and contains no password hash (the
schema has no password field) — but the `access` flag is not copied
from the record: it is always the schema default `false`. -/
theorem validate_auth_user_identity_fields (db : List UserRec)
    (email password : String) (u : UserRec)
    (hu : get_user_by_email db email = some u)
    (hpw : validate_password password u.password = .ok true)
    (hact : u.is_active = true) :
    validate_auth_user db email password =
      .ok { id := u.id, first_name := u.first_name,
            last_name := u.last_name, email := u.email,
            is_active := u.is_active, access := false,
            created_at := u.created_at, updated_at := u.updated_at,
            deleted_at := u.deleted_at } := by
  simp [validate_auth_user, hu, hpw, hact]

def c8_active_user : UserRec :=
  { id := 3, first_name := "E", last_name := "F", email := "e@x.com",
    password := bcryptHashValue "Right1!" 11, access := false,
    is_active := true, created_at := 4, updated_at := 5,
    deleted_at := none }

/-- Witness for the amended C8 at a concrete input. -/
theorem validate_auth_user_identity_fields_witness :
    validate_auth_user [c8_active_user] "e@x.com" "Right1!" =
      .ok { id := c8_active_user.id,
            first_name := c8_active_user.first_name,
            last_name := c8_active_user.last_name,
            email := c8_active_user.email,
            is_active := c8_active_user.is_active, access := false,
            created_at := c8_active_user.created_at,
            updated_at := c8_active_user.updated_at,
            deleted_at := c8_active_user.deleted_at } :=
  validate_auth_user_identity_fields [c8_active_user] "e@x.com" "Right1!"
    c8_active_user (by rfl) (by rfl) rfl

/-- Model of `UserCreate` (`app/schemas/user.py`, lines 38–57): registration
input; `access` and `is_active` default to `False`. -/
structure UserCreate where
  email : String
  first_name : String
  last_name : String
  access : Bool := false
  is_active : Bool := false
  password : String
deriving DecidableEq, Repr

/-- The dict returned by `create_user`: `{"status": "ok", "user": …}`
or `{"status": "error", "message": …}`. -/
inductive CreateResult
  | ok (user : UserRead)
  | conflict (message : String)
deriving DecidableEq, Repr

/-- Model of `UserRead.model_validate` applied to a persisted row: copies every
schema field from the ORM object (and no password). -/
def userReadOfRec (u : UserRec) : UserRead :=
  { id := u.id, email := u.email, first_name := u.first_name,
    last_name := u.last_name, access := u.access,
    is_active := u.is_active, created_at := u.created_at,
    updated_at := u.updated_at, deleted_at := u.deleted_at }

/-- The `User(...)` ORM object built by `create_user` (lines 59–66):
`is_active` and `access` are hard-coded `True`.  The stored hash is the
value `hash_password` returns; on a NUL-containing password
`hash_password` raises at line 57, before any database work, so the
persistence model covers the NUL-free case. -/
def newUserObj (user : UserCreate) (salt newId now : Nat) : UserRec :=
  { id := newId, first_name := user.first_name,
    last_name := user.last_name, email := user.email,
    password := bcryptHashValue user.password salt, is_active := true,
    access := true, created_at := now, updated_at := now,
    deleted_at := none }

/-- Model of `create_user` (`app/services/auth_service.py`, lines 43–84) against
the list of committed rows.  `salt` is the salt drawn by
`bcrypt.gensalt()`, `newId` the `uuid4()` primary key and `now` the
server timestamp.  `db.commit()` raises `IntegrityError` exactly when
the unique `email` index is violated; the handler rolls the session back
(the pending row is not persisted) and returns the conflict dict. -/
def create_user (db : List UserRec) (user : UserCreate)
    (salt newId now : Nat) : List UserRec × CreateResult :=
  let user_obj : UserRec := newUserObj user salt newId now
  if db.any (fun u => u.email == user.email) then
    (db, .conflict "User with this email already exists")
  else
    (db ++ [user_obj], .ok (userReadOfRec user_obj))

/-- C9: when the commit hits the unique-email violation, the
transaction is rolled back — the database is returned unchanged, so no
new user is persisted — and the call returns the conflict result
"User with this email already exists" rather than a created identity. -/
theorem create_user_conflict_rolls_back (db : List UserRec)
    (user : UserCreate) (salt newId now : Nat)
    (h : ∃ u ∈ db, u.email = user.email) :
    create_user db user salt newId now =
      (db, .conflict "User with this email already exists") := by
  obtain ⟨u, hu, he⟩ := h
  have hany : db.any (fun v => v.email == user.email) = true :=
    List.any_eq_true.mpr ⟨u, hu, by simp [he]⟩
  simp [create_user, hany]

def c9_user : UserRec :=
  { id := 4, first_name := "G", last_name := "H", email := "g@x.com",
    password := bcryptHashValue "Right1!" 2, access := true,
    is_active := true, created_at := 0, updated_at := 0,
    deleted_at := none }

/-- Witness for C9 at a concrete input: re-registering an existing email
leaves the database unchanged and yields the conflict result. -/
theorem create_user_conflict_rolls_back_witness :
    create_user [c9_user]
        { email := "g@x.com", first_name := "X", last_name := "Y",
          password := "Abcdef1!" } 6 99 50 =
      ([c9_user], .conflict "User with this email already exists") :=
  create_user_conflict_rolls_back [c9_user]
    { email := "g@x.com", first_name := "X", last_name := "Y",
      password := "Abcdef1!" } 6 99 50
    ⟨c9_user, List.mem_singleton.mpr rfl, rfl⟩

/-- C10: for every `UserCreate` input — including inputs whose
`is_active` or `access` fields are false, their schema default —
`create_user` persists the new row with `is_active = True` and
`access = True`, never reading the caller-supplied flags (the quantifier
ranges over arbitrary flag values, which do not appear in the persisted
row). -/
theorem create_user_forces_active_access (db : List UserRec)
    (user : UserCreate) (salt newId now : Nat)
    (h : db.any (fun u => u.email == user.email) = false) :
    ∃ obj, create_user db user salt newId now =
        (db ++ [obj], .ok (userReadOfRec obj)) ∧
      obj.is_active = true ∧ obj.access = true := by
  refine ⟨newUserObj user salt newId now, ?_, rfl, rfl⟩
  simp [create_user, h]

/-- Witness for C10 at a concrete input whose `is_active` and `access`
are both false: the persisted row still carries both flags true. -/
theorem create_user_forces_active_access_witness :
    ∃ obj, create_user []
        { email := "h@x.com", first_name := "P", last_name := "Q",
          access := false, is_active := false, password := "Abcdef1!" }
        6 99 50 =
        ([] ++ [obj], .ok (userReadOfRec obj)) ∧
      obj.is_active = true ∧ obj.access = true :=
  create_user_forces_active_access []
    { email := "h@x.com", first_name := "P", last_name := "Q",
      access := false, is_active := false, password := "Abcdef1!" }
    6 99 50 rfl

/-- Non-overlapping left-to-right removal of every occurrence of a
pattern, as Python `s.replace(pat, "")` for a nonempty `pat`; the fuel
starts at the subject length, which bounds the number of steps. -/
def removeAllAux (pat : List Char) : Nat → List Char → List Char
  | 0, l => l
  | _ + 1, [] => []
  | fuel + 1, c :: rest =>
    if pat.isPrefixOf (c :: rest) then
      removeAllAux pat fuel ((c :: rest).drop pat.length)
    else
      c :: removeAllAux pat fuel rest

def removeAll (pat s : String) : String :=
  ⟨removeAllAux pat.data s.data.length s.data⟩

/-- Python `hex.strip(...)` over the two brace characters: drop leading
and trailing braces. -/
def stripBraces (s : String) : String :=
  ⟨((s.data.dropWhile fun c => c == '\x7b' || c == '\x7d').reverse.dropWhile
      fun c => c == '\x7b' || c == '\x7d').reverse⟩

def hexDigitVal (c : Char) : Option Nat :=
  if '0' ≤ c ∧ c ≤ '9' then some (c.toNat - 48)
  else if 'a' ≤ c ∧ c ≤ 'f' then some (c.toNat - 87)
  else if 'A' ≤ c ∧ c ≤ 'F' then some (c.toNat - 55)
  else none

/-- Model of `uuid.UUID(hex=s)` from CPython's `uuid.py`: drop `urn:` and
`uuid:` occurrences, strip surrounding braces, drop hyphens, then
require exactly 32 hexadecimal digits (`int(hex, 16)`; the model
ignores `int()`'s tolerance for signs and underscore separators, which
no realistic UUID string uses).  `none` models the `ValueError`
raised on anything else. -/
def uuidParse (s : String) : Option Nat :=
  let h := removeAll "uuid:" (removeAll "urn:" s)
  let h := removeAll "-" (stripBraces h)
  let l := h.data
  if l.length = 32 && l.all (fun c => (hexDigitVal c).isSome) then
    some (l.foldl (fun acc c => acc * 16 + (hexDigitVal c).getD 0) 0)
  else none

/-- Model of `select(User).where(User.id == user_uuid)` then
`.scalars().first()` (lines 194–196). -/
def userById (db : List UserRec) (uid : Nat) : Option UserRec :=
  (db.filter (fun u => u.id == uid)).head?

/-- The `UserSchemas` literal at lines 203–213 of
`app/services/auth_service.py` — unlike `validate_auth_user`, this one
does pass `access`. -/
def identityOfUser (u : UserRec) : UserSchemas :=
  { id := u.id, first_name := u.first_name, last_name := u.last_name,
    email := u.email, is_active := u.is_active,
    created_at := u.created_at, updated_at := u.updated_at,
    deleted_at := u.deleted_at, access := u.access }

/-- Outcome of the identity-resolution chain. -/
inductive ChainResult
  | ok (u : UserSchemas)
  | http (e : HTTPError)
  | uncaughtJwt (e : JwtExc)
  | uncaughtTypeError
deriving DecidableEq, Repr

/-- Lines 179–213 of `get_current_auth_user`: read `payload.get("sub")`
(`if not user_id` rejects an absent or falsy value), parse it as a UUID
(`except ValueError` → 401), look the user up by id (absent → 401) and
map the row to `UserSchemas`.  `UUID(x)` applied to a truthy non-string
raises `AttributeError`/`TypeError`, which the `except ValueError`
handler does not catch — modelled by `uncaughtTypeError`. -/
def resolveSub (payload : Claims) (db : List UserRec) : ChainResult :=
  match lookupClaim payload "sub" with
  | none => .http ⟨401, "Invalid credentials."⟩
  | some v =>
    if pyTruthy v then
      match v with
      | .s str =>
        match uuidParse str with
        | none => .http ⟨401, "Invalid credentials."⟩
        | some uid =>
          match userById db uid with
          | none => .http ⟨401, "Invalid credentials."⟩
          | some user => .ok (identityOfUser user)
      | _ => .uncaughtTypeError
    else .http ⟨401, "Invalid credentials."⟩

/-- Model of `get_current_auth_user` (`app/services/auth_service.py`,
lines 165–213), taking the decoded payload, the user table, and the
revocation capability (`is_jti_in_denylist`; the repository ships a
placeholder that always answers false — the spec's RevocationGate is
this injected capability).  Lines 173–178: a truthy, denylisted `jti`
is rejected with 401 before anything else. -/
def get_current_auth_user (payload : Claims) (db : List UserRec)
    (denylist : JVal → Bool) : ChainResult :=
  match lookupClaim payload "jti" with
  | some v =>
    if pyTruthy v && denylist v then .http ⟨401, "Invalid credentials."⟩
    else resolveSub payload db
  | none => resolveSub payload db

/-- Model of `get_current_active_user` (`app/services/auth_service.py`,
lines 216–228): pass an active identity through, reject an inactive one
with 403; failures of the inner dependency propagate. -/
def get_current_active_user (payload : Claims) (db : List UserRec)
    (denylist : JVal → Bool) : ChainResult :=
  match get_current_auth_user payload db denylist with
  | .ok user =>
    if user.is_active then .ok user
    else .http ⟨403, "User is not active."⟩
  | r => r

/-- The protected-request dependency chain:
`get_current_token_payload` (bearer decode) feeding
`get_current_auth_user`. -/
def authChain (tok : TokenWire) (public_key : Nat) (now : Nat)
    (db : List UserRec) (denylist : JVal → Bool) : ChainResult :=
  match get_current_token_payload tok public_key now with
  | .ok p => get_current_auth_user p db denylist
  | .http e => .http e
  | .uncaughtJwt e => .uncaughtJwt e

/-- The guard at lines 173–178 passes: the payload carries no truthy,
denylisted `jti`. -/
def jtiAllowed (p : Claims) (denylist : JVal → Bool) : Bool :=
  match lookupClaim p "jti" with
  | none => true
  | some v => !(pyTruthy v && denylist v)

theorem resolveSub_401 (p : Claims) (db : List UserRec)
    (h : lookupClaim p "sub" = none ∨
      (∃ v, lookupClaim p "sub" = some v ∧ pyTruthy v = false) ∨
      (∃ s, lookupClaim p "sub" = some (.s s) ∧ uuidParse s = none) ∨
      (∃ s uid, lookupClaim p "sub" = some (.s s) ∧
        uuidParse s = some uid ∧ userById db uid = none)) :
    resolveSub p db = .http ⟨401, "Invalid credentials."⟩ := by
  rcases h with h | ⟨v, hv, ht⟩ | ⟨s, hs, hu⟩ | ⟨s, uid, hs, hu, hn⟩
  · simp [resolveSub, h]
  · simp [resolveSub, hv, ht]
  · by_cases ht : pyTruthy (.s s) = true
    · simp [resolveSub, hs, ht, hu]
    · simp [resolveSub, hs, ht]
  · by_cases ht : pyTruthy (.s s) = true
    · simp [resolveSub, hs, ht, hu, hn]
    · simp [resolveSub, hs, ht]

theorem get_current_auth_user_of_resolve (p : Claims) (db : List UserRec)
    (denylist : JVal → Bool)
    (h : resolveSub p db = .http ⟨401, "Invalid credentials."⟩) :
    get_current_auth_user p db denylist =
      .http ⟨401, "Invalid credentials."⟩ := by
  unfold get_current_auth_user
  cases hj : lookupClaim p "jti" with
  | none => exact h
  | some v =>
    by_cases hb : (pyTruthy v && denylist v) = true
    · simp [hb]
    · simp [hb, h]

theorem get_current_auth_user_of_allowed (p : Claims) (db : List UserRec)
    (denylist : JVal → Bool) (hja : jtiAllowed p denylist = true) :
    get_current_auth_user p db denylist = resolveSub p db := by
  unfold jtiAllowed at hja
  unfold get_current_auth_user
  cases hj : lookupClaim p "jti" with
  | none => rfl
  | some v =>
    rw [hj] at hja
    simp only [Bool.not_eq_eq_eq_not, Bool.not_true] at hja
    simp [hja]

theorem resolveSub_ok (p : Claims) (db : List UserRec) (s : String)
    (uid : Nat) (user : UserRec)
    (hs : lookupClaim p "sub" = some (.s s))
    (hu : uuidParse s = some uid)
    (hfound : userById db uid = some user) :
    resolveSub p db = .ok (identityOfUser user) := by
  have hne : s ≠ "" := by
    intro he
    rw [he, show uuidParse "" = none from rfl] at hu
    cases hu
  have ht : pyTruthy (.s s) = true := by simp [pyTruthy, hne]
  simp [resolveSub, hs, ht, hu, hfound]

/-- C3: for every protected request, the identity-resolution chain
fails with the uniform HTTP 401 "Invalid credentials." when bearer-token
decoding fails, when the decoded payload carries a truthy `jti` the
revocation capability reports revoked, when the `sub` claim is missing,
falsy, or a string not parseable as a UUID, or when no user with the
parsed id exists; and on a valid payload whose user exists but has
`is_active = false`, `get_current_auth_user` still returns the
(inactive) identity while the stricter `get_current_active_user` fails
with HTTP 403. -/
theorem identity_chain_gates (public_key now : Nat) (db : List UserRec)
    (denylist : JVal → Bool) :
    (∀ tok e, decode_jwt tok public_key settings.algorithm settings.issuer
        settings.audience now = .error e →
      authChain tok public_key now db denylist =
        .http ⟨401, "Invalid credentials."⟩) ∧
    (∀ p v, lookupClaim p "jti" = some v → pyTruthy v = true →
      denylist v = true →
      get_current_auth_user p db denylist =
        .http ⟨401, "Invalid credentials."⟩) ∧
    (∀ p, (lookupClaim p "sub" = none ∨
        (∃ v, lookupClaim p "sub" = some v ∧ pyTruthy v = false) ∨
        (∃ s, lookupClaim p "sub" = some (.s s) ∧ uuidParse s = none)) →
      get_current_auth_user p db denylist =
        .http ⟨401, "Invalid credentials."⟩) ∧
    (∀ p s uid, lookupClaim p "sub" = some (.s s) →
      uuidParse s = some uid → userById db uid = none →
      get_current_auth_user p db denylist =
        .http ⟨401, "Invalid credentials."⟩) ∧
    (∀ p s uid user, jtiAllowed p denylist = true →
      lookupClaim p "sub" = some (.s s) → uuidParse s = some uid →
      userById db uid = some user → user.is_active = false →
      get_current_auth_user p db denylist = .ok (identityOfUser user) ∧
      (identityOfUser user).is_active = false ∧
      get_current_active_user p db denylist =
        .http ⟨403, "User is not active."⟩) := by
  refine ⟨?_, ?_, ?_, ?_, ?_⟩
  · intro tok e hd
    have hcls : isInvalidTokenSubclass e = true := by cases e <;> rfl
    simp [authChain, get_current_token_payload, hd, hcls]
  · intro p v hj ht hdl
    simp [get_current_auth_user, hj, ht, hdl]
  · intro p hbad
    rcases hbad with h | h | h
    · exact get_current_auth_user_of_resolve p db denylist
        (resolveSub_401 p db (Or.inl h))
    · exact get_current_auth_user_of_resolve p db denylist
        (resolveSub_401 p db (Or.inr (Or.inl h)))
    · exact get_current_auth_user_of_resolve p db denylist
        (resolveSub_401 p db (Or.inr (Or.inr (Or.inl h))))
  · intro p s uid hs hu hn
    exact get_current_auth_user_of_resolve p db denylist
      (resolveSub_401 p db (Or.inr (Or.inr (Or.inr ⟨s, uid, hs, hu, hn⟩))))
  · intro p s uid user hja hs hu hfound hact
    have h1 : get_current_auth_user p db denylist =
        .ok (identityOfUser user) := by
      rw [get_current_auth_user_of_allowed p db denylist hja]
      exact resolveSub_ok p db s uid user hs hu hfound
    refine ⟨h1, by simp [identityOfUser, hact], ?_⟩
    simp [get_current_active_user, h1, identityOfUser, hact]

def c3_user : UserRec :=
  { id := 5, first_name := "I", last_name := "J", email := "i@x.com",
    password := bcryptHashValue "Right1!" 8, access := true,
    is_active := false, created_at := 0, updated_at := 0,
    deleted_at := none }

def c3_payload : Claims := [("sub", .s "00000000000000000000000000000005")]

set_option maxHeartbeats 2000000 in
/-- Witness for C3 at concrete inputs: a malformed bearer token yields
the uniform 401 through the full chain, while a payload referencing the
stored-but-inactive user id 5 passes the basic gate (inactive identity)
and is rejected with 403 by the stricter gate. -/
theorem identity_chain_gates_witness :
    authChain (.malformed "z") 0 0 [c3_user] (fun _ => false) =
      .http ⟨401, "Invalid credentials."⟩ ∧
    get_current_auth_user c3_payload [c3_user] (fun _ => false) =
      .ok (identityOfUser c3_user) ∧
    get_current_active_user c3_payload [c3_user] (fun _ => false) =
      .http ⟨403, "User is not active."⟩ :=
  ⟨(identity_chain_gates 0 0 [c3_user] (fun _ => false)).1
      (.malformed "z") .decodeError rfl,
   ((identity_chain_gates 0 0 [c3_user] (fun _ => false)).2.2.2.2
      c3_payload "00000000000000000000000000000005" 5 c3_user
      (by decide) (by decide) (by decide) (by decide) (by decide)).1,
   ((identity_chain_gates 0 0 [c3_user] (fun _ => false)).2.2.2.2
      c3_payload "00000000000000000000000000000005" 5 c3_user
      (by decide) (by decide) (by decide) (by decide) (by decide)).2.2⟩

end FastapiApp
